import Mathlib

/-!
Shallow embedding of src/app/src/main/jni/android_camera.c (the JNI control
plane around a GStreamer camera pipeline).

Pointers of the C struct become Option values (none is the NULL pointer);
the native window is a numeric handle so distinct windows can be told apart.
Every call the C code makes into an external library (GStreamer, glib,
ANativeWindow, the Java callbacks) is recorded as an Action in a trace, so
ordering and counting properties can be stated about what each native
function does.  External library functions that the code may reach with a
NULL object are modelled with their documented glib precondition guards
(g_return_if_fail logs a critical message and returns without effect).
-/

namespace AndroidCamera

/-- GStreamer pipeline states as used by the program.  VOID_PENDING is the
zero value a g_malloc0-ed state field starts with. -/
inductive GstState where
  | VOID_PENDING
  | NULL
  | READY
  | PAUSED
  | PLAYING

/-- Observable effects of the native functions: requests into the GStreamer
pipeline, callbacks into the Java host, and native-window lifecycle calls.
The Failed variants record an external call that hit a glib precondition
guard (NULL object): it logs a critical message and has no effect. -/
inductive Action where
  | setState (target : GstState)
  | setStateFailed (target : GstState)
  | callOnError (msg : String)
  | callOnStateChanged (s : GstState)
  | callOnInitialized
  | releaseWindow (w : Nat)
  | releaseNullWindow
  | acquireWindow (w : Option Nat)
  | bindWindow (w : Option Nat)
  | bindWindowFailed (w : Option Nat)
  | setCaps (width height : Int)
  | setCapsFailed (width height : Int)
  | setWhiteBalance (mode : Int)
  | setWhiteBalanceFailed (mode : Int)
  | setAutoFocus (enabled : Bool)
  | setAutoFocusFailed (enabled : Bool)
  | setRotateMethod (method : Int)
  | setRotateMethodFailed (method : Int)
  | quitMainLoop
  | quitMainLoopFailed
  | threadJoin
  | spawnThread
  | freeData

/-- The GstAhc struct (android_camera.c lines 49-60).  The app global ref
carries no data the control flow depends on and is omitted; the gboolean
state field actually stores a GstState (state_changed_cb line 158). -/
structure GstAhc where
  pipeline : Option Unit := none
  main_loop : Option Unit := none
  native_window : Option Nat := none
  state : GstState := GstState.VOID_PENDING
  ahcsrc : Option Unit := none
  filter : Option Unit := none
  vsink : Option Unit := none
  initialized : Bool := false

/-- The Java-side object as the C code sees it through JNI: the only field
touched is the long field native_custom_data holding the GstAhc pointer
(GET_CUSTOM_DATA / SET_CUSTOM_DATA macros, lines 41-47). -/
structure Thiz where
  native_custom_data : Option GstAhc := none

/-- External gst_element_set_state: on a NULL element the precondition
guard g_return_val_if_fail (GST_IS_ELEMENT (element), GST_STATE_CHANGE_FAILURE)
logs a critical message and performs no transition; otherwise the target
state is requested on the element. -/
def gst_element_set_state (e : Option Unit) (target : GstState) : Action :=
  match e with
  | none => Action.setStateFailed target
  | some _ => Action.setState target

/-- External g_main_loop_quit: on a NULL loop the precondition guard
g_return_if_fail (loop != NULL) logs a critical message and does nothing. -/
def g_main_loop_quit (l : Option Unit) : Action :=
  match l with
  | none => Action.quitMainLoopFailed
  | some _ => Action.quitMainLoop

/-- External gst_video_overlay_set_window_handle: on a NULL overlay the
type-check precondition guard logs a critical message and does nothing. -/
def set_window_handle (vsink : Option Unit) (w : Option Nat) : Action :=
  match vsink with
  | none => Action.bindWindowFailed w
  | some _ => Action.bindWindow w

/-- External g_object_set applied to the capsfilter: a NULL object hits the
glib precondition guard and is a no-op. -/
def set_filter_caps (filter : Option Unit) (width height : Int) : Action :=
  match filter with
  | none => Action.setCapsFailed width height
  | some _ => Action.setCaps width height

/-- External g_object_set of GST_PHOTOGRAPHY_PROP_WB_MODE on ahcsrc: a NULL
object hits the glib precondition guard and is a no-op. -/
def set_wb_prop (ahcsrc : Option Unit) (mode : Int) : Action :=
  match ahcsrc with
  | none => Action.setWhiteBalanceFailed mode
  | some _ => Action.setWhiteBalance mode

/-- External gst_photography_set_autofocus: on a NULL object the
precondition guard g_return_val_if_fail (photo != NULL, FALSE) makes the
call a no-op returning FALSE. -/
def set_autofocus_prop (ahcsrc : Option Unit) (enabled : Bool) : Action :=
  match ahcsrc with
  | none => Action.setAutoFocusFailed enabled
  | some _ => Action.setAutoFocus enabled

/-- External g_object_set of rotate-method on vsink: a NULL object hits the
glib precondition guard and is a no-op. -/
def set_rotate_prop (vsink : Option Unit) (method : Int) : Action :=
  match vsink with
  | none => Action.setRotateMethodFailed method
  | some _ => Action.setRotateMethod method

/-- check_initialization_complete (lines 171-188): when the session is not
yet marked as initialized and both the native window and the main loop
exist, set the flag and call the Java onGStreamerInitialized callback;
otherwise do nothing. -/
def check_initialization_complete (d : GstAhc) : GstAhc × List Action :=
  if !d.initialized && d.native_window.isSome && d.main_loop.isSome then
    ({ d with initialized := true }, [Action.callOnInitialized])
  else
    (d, [])

/-- on_error (lines 112-140): builds the message string from the source
element name and the error message, calls the Java onError callback, and
only then forces the pipeline to GST_STATE_NULL.  The recorded state field
is not touched here; it changes only via state_changed_cb. -/
def on_error (ahc : GstAhc) (srcName errMessage : String) : GstAhc × List Action :=
  (ahc,
   [Action.callOnError ("Error received from element " ++ srcName ++ ": " ++ errMessage),
    gst_element_set_state ahc.pipeline GstState.NULL])

/-- eos_cb (lines 143-147): an end-of-stream message requests PAUSED. -/
def eos_cb (d : GstAhc) : GstAhc × List Action :=
  (d, [gst_element_set_state d.pipeline GstState.PAUSED])

/-- state_changed_cb (lines 149-169): only messages whose source is the
pipeline itself update the recorded state field and notify the host via
onStateChanged. -/
def state_changed_cb (ahc : GstAhc) (srcIsPipeline : Bool) (new_state : GstState) :
    GstAhc × List Action :=
  if srcIsPipeline then
    ({ ahc with state := new_state }, [Action.callOnStateChanged new_state])
  else
    (ahc, [])

/-- app_function up to entering g_main_loop_run (lines 190-242): creates the
three elements and the pipeline, binds the native window to the vsink if one
was already received, creates the main loop and runs the readiness check.
The event-dispatching phase itself is driven by the bus callbacks above. -/
def app_function_setup (d : GstAhc) : GstAhc × List Action :=
  let d := { d with ahcsrc := some (), vsink := some (), filter := some (),
                    pipeline := some () }
  let bindActs :=
    match d.native_window with
    | some w => [Action.bindWindow (some w)]
    | none => []
  let d := { d with main_loop := some () }
  let r := check_initialization_complete d
  (r.1, bindActs ++ r.2)

/-- The zeroed GstAhc produced by g_malloc0 (gst_native_init line 265):
every pointer NULL, the state field zero, the flag false. -/
def g_malloc0_GstAhc : GstAhc :=
  { pipeline := none, main_loop := none, native_window := none,
    state := GstState.VOID_PENDING, ahcsrc := none, filter := none,
    vsink := none, initialized := false }

/-- gst_native_init (lines 262-272): allocates a zeroed GstAhc, stores it in
the native field, creates the global ref and calls pthread_create.  The
function returns void and the return value of pthread_create is discarded,
exactly as in the source; createOk models whether the external thread
creation succeeded (on success the worker thread is spawned). -/
def gst_native_init (thiz : Thiz) (createOk : Bool) : Thiz × List Action :=
  let data := g_malloc0_GstAhc
  let thiz := { thiz with native_custom_data := some data }
  (thiz, if createOk then [Action.spawnThread] else [])

/-- gst_native_finalize (lines 274-291): returns at once when the native
field is NULL; otherwise quits the main loop, joins the worker thread
(blocking until it exits), frees the struct and clears the native field. -/
def gst_native_finalize (thiz : Thiz) : Thiz × List Action :=
  match thiz.native_custom_data with
  | none => (thiz, [])
  | some d =>
      ({ thiz with native_custom_data := none },
       [g_main_loop_quit d.main_loop, Action.threadJoin, Action.freeData])

/-- gst_native_play (lines 293-302): returns at once when the native field
is NULL; otherwise requests PLAYING on the pipeline pointer (which may
itself still be NULL before the worker thread built the pipeline). -/
def gst_native_play (thiz : Thiz) : Thiz × List Action :=
  match thiz.native_custom_data with
  | none => (thiz, [])
  | some d => (thiz, [gst_element_set_state d.pipeline GstState.PLAYING])

/-- gst_native_pause (lines 304-313): returns at once when the native field
is NULL; otherwise requests PAUSED on the pipeline pointer. -/
def gst_native_pause (thiz : Thiz) : Thiz × List Action :=
  match thiz.native_custom_data with
  | none => (thiz, [])
  | some d => (thiz, [gst_element_set_state d.pipeline GstState.PAUSED])

/-- gst_native_surface_init (lines 343-370).  acquired is the result of the
external ANativeWindow_fromSurface on the given surface token (none models
an invalid or unavailable surface yielding a NULL window).  If a previous
window exists it is released first; the new window is stored, bound to the
vsink when the vsink already exists, and the readiness check runs. -/
def gst_native_surface_init (thiz : Thiz) (acquired : Option Nat) : Thiz × List Action :=
  match thiz.native_custom_data with
  | none => (thiz, [])
  | some ahc =>
      let releaseActs :=
        match ahc.native_window with
        | some w => [Action.releaseWindow w]
        | none => []
      let ahc := { ahc with native_window := acquired }
      let bindActs :=
        match ahc.vsink with
        | some _ => [Action.bindWindow acquired]
        | none => []
      let r := check_initialization_complete ahc
      ({ thiz with native_custom_data := some r.1 },
       releaseActs ++ [Action.acquireWindow acquired] ++ bindActs ++ r.2)

/-- gst_native_surface_finalize (lines 372-387): logs and returns when the
native field is NULL; otherwise releases the stored window (the C code does
not guard this release against a NULL window), clears the field and binds a
NULL handle to the vsink (unguarded in C, modelled with the external guard
of gst_video_overlay_set_window_handle). -/
def gst_native_surface_finalize (thiz : Thiz) : Thiz × List Action :=
  match thiz.native_custom_data with
  | none => (thiz, [])
  | some d =>
      let relAct :=
        match d.native_window with
        | some w => Action.releaseWindow w
        | none => Action.releaseNullWindow
      let d := { d with native_window := none }
      ({ thiz with native_custom_data := some d },
       [relAct, set_window_handle d.vsink none])

/-- gst_native_change_resolution (lines 389-412): returns at once when the
native field is NULL; otherwise requests READY, sets the new caps with the
given width and height on the capsfilter, and requests PAUSED. -/
def gst_native_change_resolution (thiz : Thiz) (width height : Int) : Thiz × List Action :=
  match thiz.native_custom_data with
  | none => (thiz, [])
  | some ahc =>
      (thiz,
       [gst_element_set_state ahc.pipeline GstState.READY,
        set_filter_caps ahc.filter width height,
        gst_element_set_state ahc.pipeline GstState.PAUSED])

/-- gst_native_set_white_balance (lines 414-425): returns at once when the
native field is NULL; otherwise sets the white-balance property on ahcsrc. -/
def gst_native_set_white_balance (thiz : Thiz) (wb_mode : Int) : Thiz × List Action :=
  match thiz.native_custom_data with
  | none => (thiz, [])
  | some ahc => (thiz, [set_wb_prop ahc.ahcsrc wb_mode])

/-- gst_native_set_auto_focus (lines 427-438): returns at once when the
native field is NULL; otherwise calls gst_photography_set_autofocus on
ahcsrc. -/
def gst_native_set_auto_focus (thiz : Thiz) (enabled : Bool) : Thiz × List Action :=
  match thiz.native_custom_data with
  | none => (thiz, [])
  | some ahc => (thiz, [set_autofocus_prop ahc.ahcsrc enabled])

/-- gst_native_set_rotate_method (lines 440-449): returns at once when the
native field is NULL; otherwise sets rotate-method on the vsink. -/
def gst_native_set_rotate_method (thiz : Thiz) (method : Int) : Thiz × List Action :=
  match thiz.native_custom_data with
  | none => (thiz, [])
  | some ahc => (thiz, [set_rotate_prop ahc.vsink method])

/-- Host-side or worker-side happenings that touch the shared GstAhc: the
host calls into the JNI functions; loopReady is the worker thread reaching
the readiness check after building the pipeline and the main loop. -/
inductive HostEvent where
  | inject (acquired : Option Nat)
  | retract
  | loopReady
  | play
  | pause
  deriving DecidableEq

/-- One event applied to the Java object. -/
def stepEvent (thiz : Thiz) : HostEvent → Thiz × List Action
  | HostEvent.inject a => gst_native_surface_init thiz a
  | HostEvent.retract => gst_native_surface_finalize thiz
  | HostEvent.loopReady =>
      match thiz.native_custom_data with
      | none => (thiz, [])
      | some d =>
          let r := app_function_setup d
          ({ thiz with native_custom_data := some r.1 }, r.2)
  | HostEvent.play => gst_native_play thiz
  | HostEvent.pause => gst_native_pause thiz

/-- A sequence of events applied in order, with the concatenated trace. -/
def runEvents (thiz : Thiz) : List HostEvent → Thiz × List Action
  | [] => (thiz, [])
  | e :: es =>
      let r := stepEvent thiz e
      let r2 := runEvents r.1 es
      (r2.1, r.2 ++ r2.2)

/-- Recognizes the one-time onInitialized notification in a trace. -/
def isCallOnInitialized : Action → Bool
  | Action.callOnInitialized => true
  | _ => false

/-- Recognizes a release of the native window with handle w in a trace. -/
def isReleaseOf (w : Nat) : Action → Bool
  | Action.releaseWindow v => v == w
  | _ => false

/-- How many more times the onInitialized callback can still fire from this
struct: zero once the flag is set, one before. -/
def initBudgetD (d : GstAhc) : Nat :=
  if d.initialized then 0 else 1

/-- How many more times the onInitialized callback can still fire from this
object: zero once the flag is set (or no session exists), one before. -/
def initBudget (t : Thiz) : Nat :=
  match t.native_custom_data with
  | none => 0
  | some d => initBudgetD d

/-- The live native-window references after one traced external call:
ANativeWindow_fromSurface acquires a reference, ANativeWindow_release
drops one. -/
def stepLive (live : List Nat) : Action → List Nat
  | Action.acquireWindow (some w) => w :: live
  | Action.releaseWindow w => live.erase w
  | _ => live

/-- Checks that along the whole trace at most one native-window reference is
ever live at the same time. -/
def atMostOneLive : List Nat → List Action → Bool
  | live, [] => decide (live.length ≤ 1)
  | live, act :: rest =>
      let live2 := stepLive live act
      decide (live2.length ≤ 1) && atMostOneLive live2 rest

/-- Two surface injections in sequence, with the combined trace. -/
def injectTwice (t : Thiz) (a b : Nat) : Thiz × List Action :=
  let r1 := gst_native_surface_init t (some a)
  let r2 := gst_native_surface_init r1.1 (some b)
  (r2.1, r1.2 ++ r2.2)

/-- A freshly started session: the struct is allocated and zeroed, the
worker thread has not yet built anything. -/
def tFresh : Thiz := { native_custom_data := some g_malloc0_GstAhc }

/-- A fully running session: pipeline, elements and main loop exist, a
window with handle 5 is bound, the one-time flag is already set. -/
def dLive : GstAhc :=
  { pipeline := some (), main_loop := some (), native_window := some 5,
    state := GstState.PLAYING, ahcsrc := some (), filter := some (),
    vsink := some (), initialized := true }

/-- The Java object of the fully running session. -/
def tLive : Thiz := { native_custom_data := some dLive }

/-- A running session whose window was retracted: ready to receive two
fresh injections. -/
def dNoWin : GstAhc := { dLive with native_window := none }

/-- The Java object of the session without a window. -/
def tNoWin : Thiz := { native_custom_data := some dNoWin }

/-- The readiness check fires at most the budget: it emits one notification
exactly when it flips the flag from false to true, and nothing once the
flag is set. -/
theorem check_init_budget (d : GstAhc) :
    (check_initialization_complete d).2.countP isCallOnInitialized +
      initBudgetD (check_initialization_complete d).1 ≤ initBudgetD d := by
  by_cases hinit : d.initialized <;>
    by_cases hw : d.native_window.isSome <;>
    by_cases hml : d.main_loop.isSome <;>
      simp [check_initialization_complete, initBudgetD, isCallOnInitialized, hinit, hw, hml]

/-- Each single event spends at most the remaining onInitialized budget. -/
theorem stepEvent_budget (t : Thiz) (e : HostEvent) :
    (stepEvent t e).2.countP isCallOnInitialized + initBudget (stepEvent t e).1 ≤
      initBudget t := by
  rcases ht : t.native_custom_data with _ | d
  · cases e <;>
      simp [stepEvent, gst_native_surface_init, gst_native_surface_finalize,
        gst_native_play, gst_native_pause, ht, initBudget]
  · cases e with
    | inject a =>
        have hc := check_init_budget { d with native_window := a }
        rcases hw : d.native_window with _ | w <;> rcases hv : d.vsink with _ | v <;>
          simpa [stepEvent, gst_native_surface_init, ht, hw, hv, initBudget,
            initBudgetD, isCallOnInitialized] using hc
    | retract =>
        rcases hw : d.native_window with _ | w <;> rcases hv : d.vsink with _ | v <;>
          simp [stepEvent, gst_native_surface_finalize, ht, hw, hv, initBudget,
            initBudgetD, set_window_handle, isCallOnInitialized]
    | loopReady =>
        have hc := check_init_budget
          { d with ahcsrc := some (), vsink := some (), filter := some (),
                   pipeline := some (), main_loop := some () }
        rcases hw : d.native_window with _ | w <;>
          simpa [stepEvent, app_function_setup, ht, hw, initBudget, initBudgetD,
            isCallOnInitialized] using hc
    | play =>
        rcases hp : d.pipeline with _ | p <;>
          simp [stepEvent, gst_native_play, gst_element_set_state, ht, hp, initBudget,
            isCallOnInitialized]
    | pause =>
        rcases hp : d.pipeline with _ | p <;>
          simp [stepEvent, gst_native_pause, gst_element_set_state, ht, hp, initBudget,
            isCallOnInitialized]

/-- Over any event sequence, the number of onInitialized notifications plus
the remaining budget never exceeds the starting budget. -/
theorem runEvents_budget (t : Thiz) (evs : List HostEvent) :
    (runEvents t evs).2.countP isCallOnInitialized + initBudget (runEvents t evs).1 ≤
      initBudget t := by
  induction evs generalizing t with
  | nil => simp [runEvents]
  | cons e es ih =>
      have h1 := stepEvent_budget t e
      have h2 := ih (stepEvent t e).1
      simp only [runEvents, List.countP_append]
      omega

/-- C2: for every Session and every interleaving of surface injections and
retractions (together with worker-loop startup and play or pause requests),
the onInitialized notification fires at most once over the whole run: the
readiness check sets the one-shot flag the first time the main loop and a
window are both present, and once the flag is set the notification can
never fire again, even after the surface is retracted and re-injected. -/
theorem C2_onInitialized_at_most_once (t : Thiz) (createOk : Bool) (evs : List HostEvent) :
    (runEvents (gst_native_init t createOk).1 evs).2.countP isCallOnInitialized ≤ 1 := by
  have h := runEvents_budget (gst_native_init t createOk).1 evs
  have hb : initBudget (gst_native_init t createOk).1 = 1 := by
    simp [gst_native_init, initBudget, initBudgetD, g_malloc0_GstAhc]
  omega

/-- C1 counterexample: on a concrete running session (state PLAYING), the
error handler emits the onError callback as its FIRST action and forces the
pipeline to NULL only as its SECOND action, and the recorded state field is
still PLAYING when the handler returns — so the host is notified before the
pipeline is stopped, and no NULL state is recorded or reported before the
onError callback, contrary to the claim. -/
theorem C1_counterexample :
    (on_error dLive "ahcsrc" "Internal data stream error.").2 =
      [Action.callOnError "Error received from element ahcsrc: Internal data stream error.",
       Action.setState GstState.NULL] ∧
    (on_error dLive "ahcsrc" "Internal data stream error.").1.state = GstState.PLAYING := by
  constructor <;> rfl

/-- C1 (amended): when a pipeline error event is handled, the host is first
notified via onError and only afterwards is the pipeline forced to NULL;
the handler itself neither records nor reports a NULL state — the NULL
state is recorded and reported via onStateChanged only when the
asynchronous state-changed event from the pipeline arrives later. -/
theorem C1_error_notifies_host_then_nulls_pipeline (ahc : GstAhc) (srcName msg : String)
    (hp : ahc.pipeline = some ()) :
    (on_error ahc srcName msg).2 =
      [Action.callOnError ("Error received from element " ++ srcName ++ ": " ++ msg),
       Action.setState GstState.NULL] ∧
    (on_error ahc srcName msg).1 = ahc ∧
    (state_changed_cb ahc true GstState.NULL).1.state = GstState.NULL ∧
    (state_changed_cb ahc true GstState.NULL).2 =
      [Action.callOnStateChanged GstState.NULL] := by
  simp [on_error, state_changed_cb, gst_element_set_state, hp]

/-- Witness for the amended C1 at a concrete running session. -/
theorem C1_witness :
    (on_error dLive "ahcsrc" "boom").2 =
      [Action.callOnError ("Error received from element " ++ "ahcsrc" ++ ": " ++ "boom"),
       Action.setState GstState.NULL] ∧
    (on_error dLive "ahcsrc" "boom").1 = dLive ∧
    (state_changed_cb dLive true GstState.NULL).1.state = GstState.NULL ∧
    (state_changed_cb dLive true GstState.NULL).2 =
      [Action.callOnStateChanged GstState.NULL] :=
  C1_error_notifies_host_then_nulls_pipeline dLive "ahcsrc" "boom" rfl

/-- C3: for every sequence of play and pause requests issued after start
returned but before the worker thread constructed the pipeline object
(native field set, pipeline pointer still NULL), the session object is left
unchanged and every emitted external call is a guard-failed set_state — a
logged no-op with no state-transition request applied, and no crash since
every function is total on this state. -/
theorem C3_play_pause_noop_before_pipeline (t : Thiz) (d : GstAhc)
    (hd : t.native_custom_data = some d) (hp : d.pipeline = none)
    (evs : List HostEvent)
    (hevs : ∀ e ∈ evs, e = HostEvent.play ∨ e = HostEvent.pause) :
    (runEvents t evs).1 = t ∧
    ∀ a ∈ (runEvents t evs).2,
      a = Action.setStateFailed GstState.PLAYING ∨
        a = Action.setStateFailed GstState.PAUSED := by
  induction evs with
  | nil => simp [runEvents]
  | cons e es ih =>
      obtain ⟨ih1, ih2⟩ := ih (fun x hx => hevs x (List.mem_cons_of_mem _ hx))
      rcases hevs e (List.mem_cons_self e es) with he | he <;> subst he
      · have hstep : stepEvent t HostEvent.play =
            (t, [Action.setStateFailed GstState.PLAYING]) := by
          simp [stepEvent, gst_native_play, hd, hp, gst_element_set_state]
        refine ⟨?_, ?_⟩
        · simp only [runEvents, hstep]
          exact ih1
        · simp only [runEvents, hstep, List.mem_append, List.mem_singleton]
          rintro a (rfl | ha)
          · exact Or.inl rfl
          · exact ih2 a ha
      · have hstep : stepEvent t HostEvent.pause =
            (t, [Action.setStateFailed GstState.PAUSED]) := by
          simp [stepEvent, gst_native_pause, hd, hp, gst_element_set_state]
        refine ⟨?_, ?_⟩
        · simp only [runEvents, hstep]
          exact ih1
        · simp only [runEvents, hstep, List.mem_append, List.mem_singleton]
          rintro a (rfl | ha)
          · exact Or.inr rfl
          · exact ih2 a ha

/-- Witness for C3 at a freshly started session and a concrete request
sequence play, pause, play. -/
theorem C3_witness :
    (runEvents tFresh [HostEvent.play, HostEvent.pause, HostEvent.play]).1 = tFresh ∧
    ∀ a ∈ (runEvents tFresh [HostEvent.play, HostEvent.pause, HostEvent.play]).2,
      a = Action.setStateFailed GstState.PLAYING ∨
        a = Action.setStateFailed GstState.PAUSED :=
  C3_play_pause_noop_before_pipeline tFresh g_malloc0_GstAhc rfl rfl _ (by decide)

/-- C4: after injecting surface a and then surface b on a running session
(vsink constructed, no window bound yet), window a is released exactly
once and window b never; there is a point of the combined trace from which
the remaining actions are exactly release a, acquire b, bind b — so the
release of a happens strictly before the binding of b and a is never used
again once b is bound (binding b is the final action); and along the whole
trace at most one native-window reference is live at any time. -/
theorem C4_surface_replacement (t : Thiz) (d : GstAhc) (a b : Nat)
    (hd : t.native_custom_data = some d) (hw : d.native_window = none)
    (hv : d.vsink = some ()) (hab : a ≠ b) :
    (injectTwice t a b).2.countP (isReleaseOf a) = 1 ∧
    (injectTwice t a b).2.countP (isReleaseOf b) = 0 ∧
    (∃ k, (injectTwice t a b).2.drop k =
      [Action.releaseWindow a, Action.acquireWindow (some b),
       Action.bindWindow (some b)]) ∧
    atMostOneLive [] (injectTwice t a b).2 = true := by
  have hba : b ≠ a := Ne.symm hab
  cases hinit : d.initialized with
  | true =>
      have htr : (injectTwice t a b).2 =
          [Action.acquireWindow (some a), Action.bindWindow (some a),
           Action.releaseWindow a, Action.acquireWindow (some b),
           Action.bindWindow (some b)] := by
        simp [injectTwice, gst_native_surface_init, check_initialization_complete,
          hd, hw, hv, hinit]
      rw [htr]
      refine ⟨by simp [isReleaseOf, hab, hba], by simp [isReleaseOf, hab, hba], ⟨2, rfl⟩, ?_⟩
      simp [atMostOneLive, stepLive, List.erase_cons_head]
  | false =>
      rcases hml : d.main_loop with _ | u
      · have htr : (injectTwice t a b).2 =
            [Action.acquireWindow (some a), Action.bindWindow (some a),
             Action.releaseWindow a, Action.acquireWindow (some b),
             Action.bindWindow (some b)] := by
          simp [injectTwice, gst_native_surface_init, check_initialization_complete,
            hd, hw, hv, hinit, hml]
        rw [htr]
        refine ⟨by simp [isReleaseOf, hab, hba], by simp [isReleaseOf, hab, hba], ⟨2, rfl⟩, ?_⟩
        simp [atMostOneLive, stepLive, List.erase_cons_head]
      · have htr : (injectTwice t a b).2 =
            [Action.acquireWindow (some a), Action.bindWindow (some a),
             Action.callOnInitialized, Action.releaseWindow a,
             Action.acquireWindow (some b), Action.bindWindow (some b)] := by
          simp [injectTwice, gst_native_surface_init, check_initialization_complete,
            hd, hw, hv, hinit, hml]
        rw [htr]
        refine ⟨by simp [isReleaseOf, hab, hba], by simp [isReleaseOf, hab, hba], ⟨3, rfl⟩, ?_⟩
        simp [atMostOneLive, stepLive, List.erase_cons_head]

/-- Witness for C4 at the concrete running session with windows 1 and 2. -/
theorem C4_witness :
    (injectTwice tNoWin 1 2).2.countP (isReleaseOf 1) = 1 ∧
    (injectTwice tNoWin 1 2).2.countP (isReleaseOf 2) = 0 ∧
    (∃ k, (injectTwice tNoWin 1 2).2.drop k =
      [Action.releaseWindow 1, Action.acquireWindow (some 2),
       Action.bindWindow (some 2)]) ∧
    atMostOneLive [] (injectTwice tNoWin 1 2).2 = true :=
  C4_surface_replacement tNoWin dNoWin 1 2 rfl rfl rfl (by decide)

/-- C5: stop is idempotent and blocking.  The first call on a session
clears the native field, quits the main loop and joins the worker thread
(pthread_join blocks the host until the worker has fully exited) before
freeing; a second call after a completed first call is a pure no-op (no
second quit, join or free, hence no crash and nothing to deadlock on); and
when the worker already exited on its own (main loop pointer already NULL)
the quit call hits the glib NULL guard and is a harmless logged no-op while
the join of the exited thread still succeeds. -/
theorem C5_stop_idempotent (t : Thiz) (d : GstAhc)
    (hd : t.native_custom_data = some d) :
    (gst_native_finalize t).1.native_custom_data = none ∧
    (gst_native_finalize t).2 =
      [g_main_loop_quit d.main_loop, Action.threadJoin, Action.freeData] ∧
    gst_native_finalize (gst_native_finalize t).1 = ((gst_native_finalize t).1, []) ∧
    g_main_loop_quit none = Action.quitMainLoopFailed := by
  simp [gst_native_finalize, hd, g_main_loop_quit]

/-- Witness for C5 at a concrete running session. -/
theorem C5_witness :
    (gst_native_finalize tLive).1.native_custom_data = none ∧
    (gst_native_finalize tLive).2 =
      [g_main_loop_quit dLive.main_loop, Action.threadJoin, Action.freeData] ∧
    gst_native_finalize (gst_native_finalize tLive).1 =
      ((gst_native_finalize tLive).1, []) ∧
    g_main_loop_quit none = Action.quitMainLoopFailed :=
  C5_stop_idempotent tLive dLive rfl

/-- C6 counterexample: when thread creation fails, gst_native_init still
installs the session and returns exactly as on success (the C function has
return type void and discards the pthread_create result), and its trace is
empty — in particular no error of any kind is surfaced to the caller, so
start does NOT fail with an InitError but succeeds silently. -/
theorem C6_counterexample :
    (gst_native_init { native_custom_data := none } false).1 =
      (gst_native_init { native_custom_data := none } true).1 ∧
    (gst_native_init { native_custom_data := none } false).2 = [] := by
  constructor <;> rfl

/-- C6 (amended): start allocates the Session, stores it in the native
field, spawns the worker thread when thread creation succeeds, and returns
immediately in all cases; the result of pthread_create is ignored, so a
thread-creation failure is not surfaced to the caller — the caller-visible
result is identical to the success case. -/
theorem C6_start_ignores_thread_creation_failure (t : Thiz) (createOk : Bool) :
    (gst_native_init t createOk).1.native_custom_data = some g_malloc0_GstAhc ∧
    (gst_native_init t createOk).2 =
      (if createOk then [Action.spawnThread] else []) ∧
    (gst_native_init t false).1 = (gst_native_init t true).1 := by
  simp [gst_native_init]

/-- C7: each parameter setter on a session forwards the value directly to
its pipeline stage (white balance and autofocus to ahcsrc, rotation to the
vsink) as the single emitted call, leaving the session object untouched and
requesting no state transition; when the stage pointer is not yet
constructed the forwarded call hits the external NULL guard and is a
silent no-op rather than a crash or an error. -/
theorem C7_setters_forward_or_noop (t : Thiz) (d : GstAhc)
    (hd : t.native_custom_data = some d) (mode method : Int) (enabled : Bool) :
    (d.ahcsrc = some () →
      gst_native_set_white_balance t mode = (t, [Action.setWhiteBalance mode]) ∧
      gst_native_set_auto_focus t enabled = (t, [Action.setAutoFocus enabled])) ∧
    (d.vsink = some () →
      gst_native_set_rotate_method t method = (t, [Action.setRotateMethod method])) ∧
    (d.ahcsrc = none →
      gst_native_set_white_balance t mode = (t, [Action.setWhiteBalanceFailed mode]) ∧
      gst_native_set_auto_focus t enabled = (t, [Action.setAutoFocusFailed enabled])) ∧
    (d.vsink = none →
      gst_native_set_rotate_method t method = (t, [Action.setRotateMethodFailed method])) := by
  refine ⟨fun h => ?_, fun h => ?_, fun h => ?_, fun h => ?_⟩ <;>
    simp [gst_native_set_white_balance, gst_native_set_auto_focus,
      gst_native_set_rotate_method, set_wb_prop, set_autofocus_prop,
      set_rotate_prop, hd, h]

/-- Witness for C7 at a concrete running session with all stages present. -/
theorem C7_witness :
    (dLive.ahcsrc = some () →
      gst_native_set_white_balance tLive 3 = (tLive, [Action.setWhiteBalance 3]) ∧
      gst_native_set_auto_focus tLive true = (tLive, [Action.setAutoFocus true])) ∧
    (dLive.vsink = some () →
      gst_native_set_rotate_method tLive 1 = (tLive, [Action.setRotateMethod 1])) ∧
    (dLive.ahcsrc = none →
      gst_native_set_white_balance tLive 3 = (tLive, [Action.setWhiteBalanceFailed 3]) ∧
      gst_native_set_auto_focus tLive true = (tLive, [Action.setAutoFocusFailed true])) ∧
    (dLive.vsink = none →
      gst_native_set_rotate_method tLive 1 = (tLive, [Action.setRotateMethodFailed 1])) :=
  C7_setters_forward_or_noop tLive dLive rfl 3 1 true

/-- C8 counterexample: on the concrete running session with window 5 bound,
injecting a surface whose acquisition yields a NULL handle makes the code
RELEASE the previously bound window 5 and bind the NULL handle to the
rendering stage, leaving the stored window field NULL — it does not leave
the previous surface in place, contrary to the claim. -/
theorem C8_counterexample :
    (gst_native_surface_init tLive none).2 =
      [Action.releaseWindow 5, Action.acquireWindow none, Action.bindWindow none] ∧
    (gst_native_surface_init tLive none).1.native_custom_data =
      some { dLive with native_window := none } := by
  constructor <;> rfl

/-- C8 (amended): if injectSurface is called with a token whose acquisition
yields a NULL handle while a previous window is bound and the vsink exists,
the previous window is released, the NULL handle is stored, and the
rendering stage is re-bound to the NULL handle — the previously bound
surface is neither kept in place nor kept bound. -/
theorem C8_null_acquire_releases_previous (t : Thiz) (d : GstAhc) (w : Nat)
    (hd : t.native_custom_data = some d) (hw : d.native_window = some w)
    (hv : d.vsink = some ()) :
    (gst_native_surface_init t none).1.native_custom_data =
      some { d with native_window := none } ∧
    (gst_native_surface_init t none).2 =
      [Action.releaseWindow w, Action.acquireWindow none, Action.bindWindow none] := by
  simp [gst_native_surface_init, check_initialization_complete, hd, hw, hv]

/-- Witness for the amended C8 at the concrete running session. -/
theorem C8_witness :
    (gst_native_surface_init tLive none).1.native_custom_data =
      some { dLive with native_window := none } ∧
    (gst_native_surface_init tLive none).2 =
      [Action.releaseWindow 5, Action.acquireWindow none, Action.bindWindow none] :=
  C8_null_acquire_releases_previous tLive dLive 5 rfl rfl rfl

/-- C9: on a live session (pipeline and capsfilter constructed),
gst_native_change_resolution emits exactly the three calls in this order:
request READY on the pipeline, set the caps carrying the given width and
height on the capsfilter, request PAUSED on the pipeline; the session
object itself is unchanged. -/
theorem C9_change_resolution_sequence (t : Thiz) (d : GstAhc)
    (hd : t.native_custom_data = some d) (hp : d.pipeline = some ())
    (hf : d.filter = some ()) (width height : Int) :
    gst_native_change_resolution t width height =
      (t, [Action.setState GstState.READY, Action.setCaps width height,
           Action.setState GstState.PAUSED]) := by
  simp [gst_native_change_resolution, gst_element_set_state, set_filter_caps,
    hd, hp, hf]

/-- Witness for C9 at the concrete running session with 640 by 480. -/
theorem C9_witness :
    gst_native_change_resolution tLive 640 480 =
      (tLive, [Action.setState GstState.READY, Action.setCaps 640 480,
               Action.setState GstState.PAUSED]) :=
  C9_change_resolution_sequence tLive dLive rfl rfl rfl 640 480

/-- C10: a completed finalize clears the native field to NULL, and every
operation invoked on an object whose native field is NULL returns
immediately as a no-op with an empty trace, because each native function
first reads the field and returns when it is NULL. -/
theorem C10_finalize_clears_field_all_ops_noop (t : Thiz) (d : GstAhc)
    (hd : t.native_custom_data = some d) (acquired : Option Nat)
    (width height mode method : Int) (enabled : Bool) :
    (gst_native_finalize t).1.native_custom_data = none ∧
    (∀ u : Thiz, u.native_custom_data = none →
      gst_native_play u = (u, []) ∧
      gst_native_pause u = (u, []) ∧
      gst_native_change_resolution u width height = (u, []) ∧
      gst_native_surface_init u acquired = (u, []) ∧
      gst_native_surface_finalize u = (u, []) ∧
      gst_native_set_white_balance u mode = (u, []) ∧
      gst_native_set_auto_focus u enabled = (u, []) ∧
      gst_native_set_rotate_method u method = (u, []) ∧
      gst_native_finalize u = (u, [])) := by
  refine ⟨by simp [gst_native_finalize, hd], fun u hu => ?_⟩
  simp [gst_native_play, gst_native_pause, gst_native_change_resolution,
    gst_native_surface_init, gst_native_surface_finalize,
    gst_native_set_white_balance, gst_native_set_auto_focus,
    gst_native_set_rotate_method, gst_native_finalize, hu]

/-- Witness for C10 at the concrete running session. -/
theorem C10_witness :
    (gst_native_finalize tLive).1.native_custom_data = none ∧
    (∀ u : Thiz, u.native_custom_data = none →
      gst_native_play u = (u, []) ∧
      gst_native_pause u = (u, []) ∧
      gst_native_change_resolution u 640 480 = (u, []) ∧
      gst_native_surface_init u (some 7) = (u, []) ∧
      gst_native_surface_finalize u = (u, []) ∧
      gst_native_set_white_balance u 3 = (u, []) ∧
      gst_native_set_auto_focus u true = (u, []) ∧
      gst_native_set_rotate_method u 1 = (u, []) ∧
      gst_native_finalize u = (u, [])) :=
  C10_finalize_clears_field_all_ops_noop tLive dLive rfl (some 7) 640 480 3 1 true

end AndroidCamera
